import Mathlib

/-!
Verification development for the LAMMPS output-format parsers
(`python/lammps/formats.py`): the `LogFile` thermo-log parser and the
`AvgChunkFile` chunk-average parser.

The Python code is shallowly embedded as follows.

* A file is a list of lines.  Python's file iteration yields lines with a
  trailing newline; here lines carry no trailing newline, and every place
  where the code is sensitive to it is adjusted (e.g. the regex anchors
  `$` match before the trailing newline, `strip('-\n')` also strips it,
  so stripping just `-` over newline-free lines is equivalent).
* Python floats are modelled as exact rationals: the parsers only convert
  tokens and store the results, they never compute with them, so the exact
  image of decimal/scientific literals is faithful.  `parseFloat` models
  the builtin `float` on ordinary finite literals (sign, digits, decimal
  point, exponent); `parseInt` models `int` on sign-plus-digits literals.
* Python dicts are insertion ordered; a thermo run is therefore an
  association list from column name to value sequence, updated only
  through operations that keep keys unique and preserve first-seen order.
* Fatal Python exceptions (NameError for unbound locals, KeyError,
  IndexError, ValueError, AssertionError, raised Exceptions, and a
  rejection by the external YAML decoder) become an `Except` error; the
  parse of the whole file aborts there, like the uncaught exception does.
* The external structured-data (YAML) decoder is out of scope per the
  code's narrow use of it: the log parser is parameterised by a `decode`
  function from the buffered block to `keywords` plus `data` rows.
-/

/-! ## Character and string primitives (models of Python string ops) -/

/-- Python whitespace for `str.split()` and the regex class `\s`
(ASCII part: space, tab, newline, carriage return, vertical tab, form feed). -/
def pyIsSpace (c : Char) : Bool :=
  c = ' ' || c = '\t' || c = '\n' || c = '\r' || c = '\x0b' || c = '\x0c'

/-- Holds when the char list `p` is an initial segment of `l`. -/
def isPref : List Char → List Char → Bool
  | [], _ => true
  | _ :: _, [] => false
  | a :: as, b :: bs => if a = b then isPref as bs else false

/-- Substring occurrence test starting at any position of `l`. -/
def subAt (nd : List Char) : List Char → Bool
  | [] => isPref nd []
  | c :: cs => isPref nd (c :: cs) || subAt nd cs

/-- Model of Python's `needle in hay` substring test. -/
def containsSubstring (hay needle : String) : Bool :=
  subAt needle.data hay.data

/-- Fuel-driven helper for `countSubstr`; counts non-overlapping occurrences
left to right, skipping past each match, exactly like `str.count`. -/
def countSubAux (nd : List Char) : Nat → List Char → Nat
  | 0, _ => 0
  | _ + 1, [] => 0
  | f + 1, c :: cs =>
    if isPref nd (c :: cs) then 1 + countSubAux nd f (List.drop (nd.length - 1) cs)
    else countSubAux nd f cs

/-- Model of Python's `hay.count(needle)` for nonempty `needle`. -/
def countSubstr (hay needle : String) : Nat :=
  countSubAux needle.data hay.data.length hay.data

/-- Model of Python's `s.startswith(pre)`. -/
def startsW (s pre : String) : Bool :=
  isPref pre.data s.data

/-- Model of Python's `s.strip(chars)`: removes leading and trailing
characters drawn from `cs`. -/
def stripChars (s : String) (cs : List Char) : String :=
  ⟨(((s.data.dropWhile (fun c => cs.contains c)).reverse.dropWhile
      (fun c => cs.contains c)).reverse)⟩

/-- First position at which `nd` occurs in the list, if any. -/
def findSub (nd : List Char) : List Char → Option Nat
  | [] => if isPref nd [] then some 0 else none
  | c :: cs =>
    if isPref nd (c :: cs) then some 0
    else (findSub nd cs).map (· + 1)

/-- Fuel-driven helper for `splitOnSub`. -/
def splitSubAux (sep : List Char) : Nat → List Char → List (List Char)
  | 0, l => [l]
  | f + 1, l =>
    match findSub sep l with
    | none => [l]
    | some i => l.take i :: splitSubAux sep f (l.drop (i + sep.length))

/-- Model of Python's `s.split(sep)` for a nonempty separator: split on
every non-overlapping occurrence, left to right, keeping empty pieces. -/
def splitOnSub (s sep : String) : List String :=
  (splitSubAux sep.data (s.data.length + 1) s.data).map (fun l => String.mk l)

/-- Model of Python's `s.split(c)` for a single-character separator. -/
def splitOnChar (s : String) (c : Char) : List String :=
  splitOnSub s ⟨[c]⟩

/-- Helper for `pySplitWs`: `acc` holds the (reversed) token being read. -/
def wsSplitAux : List Char → List Char → List (List Char)
  | [], acc => if acc = [] then [] else [acc.reverse]
  | c :: cs, acc =>
    if pyIsSpace c then
      if acc = [] then wsSplitAux cs [] else acc.reverse :: wsSplitAux cs []
    else wsSplitAux cs (c :: acc)

/-- Model of Python's whitespace `s.split()`: tokens between maximal
whitespace runs, with no empty tokens. -/
def pySplitWs (s : String) : List String :=
  (wsSplitAux s.data []).map (fun l => String.mk l)

/-- Model of Python list indexing `l[i]`, including negative-index wrap;
`none` is an IndexError. -/
def pyGet {α : Type} (l : List α) (i : Int) : Option α :=
  if 0 ≤ i then l.get? i.toNat
  else
    let j : Int := (l.length : Int) + i
    if 0 ≤ j then l.get? j.toNat else none

/-- Model of Python list element assignment `l[i] = a` at an index already
known to be valid (resolving negative indices the same way as `pyGet`). -/
def pySet {α : Type} (l : List α) (i : Int) (a : α) : List α :=
  if 0 ≤ i then l.set i.toNat a
  else l.set ((l.length : Int) + i).toNat a

/-- Model of Python's `l.index(x)` on lists of strings: first index of `x`,
`none` is the ValueError raised when `x` is absent. -/
def idxOf : List String → String → Option Nat
  | [], _ => none
  | a :: as, x => if a = x then some 0 else (idxOf as x).map (· + 1)

/-! ## Numeric literal parsing (models of `float` and `int`) -/

/-- Leading sign of a numeric literal. -/
def readSign : List Char → (Int × List Char)
  | '+' :: r => (1, r)
  | '-' :: r => (-1, r)
  | l => (1, l)

/-- Decimal digits to a natural number. -/
def digitsToNat (l : List Char) : Nat :=
  l.foldl (fun acc c => 10 * acc + (c.toNat - '0'.toNat)) 0

/-- The exponent suffix of a float literal (everything after `e`/`E`):
sign, one or more digits, end of token; combines the mantissa, the
fractional length and the exponent into one exact rational. -/
def expPart (mant : Int) (fracLen : Nat) (r : List Char) : Option ℚ :=
  let (es, r1) := readSign r
  let ed := r1.takeWhile Char.isDigit
  if ed = [] ∨ r1.dropWhile Char.isDigit ≠ [] then none
  else
    let e : Int := es * (digitsToNat ed : Int)
    some (mkRat (mant * ((10 ^ e.toNat : Nat) : Int))
      (10 ^ fracLen * 10 ^ (-e).toNat))

/-- Model of Python's `float` on ordinary finite literals: optional sign,
integer digits, optional fractional part, optional exponent; at least one
digit in the mantissa is required and nothing may trail the literal.
(`inf`, `nan` and digit-group underscores are not modelled; no call site
exercised by the claims can receive them.)  `none` is a ValueError. -/
def parseFloat (s : String) : Option ℚ :=
  let (sg, l1) := readSign s.data
  let ip := l1.takeWhile Char.isDigit
  let l2 := l1.dropWhile Char.isDigit
  let fp := match l2 with
    | '.' :: r => r.takeWhile Char.isDigit
    | _ => []
  let l3 := match l2 with
    | '.' :: r => r.dropWhile Char.isDigit
    | _ => l2
  if ip = [] ∧ fp = [] then none
  else
    let mant : Int := sg * (digitsToNat (ip ++ fp) : Int)
    match l3 with
    | [] => some (mkRat mant (10 ^ fp.length))
    | 'e' :: r => expPart mant fp.length r
    | 'E' :: r => expPart mant fp.length r
    | _ => none

/-- Model of Python's `int` on sign-plus-digits literals; `none` is a
ValueError. -/
def parseInt (s : String) : Option Int :=
  let (sg, l1) := readSign s.data
  if l1 = [] ∨ ¬ l1.all Char.isDigit then none
  else some (sg * (digitsToNat l1 : Int))

/-! ## Line classification (models of the regexes in `LogFile.__init__`) -/

/-- Model of `re.match(r'^ *Step ', line)`. -/
def matchStepHeader (s : String) : Bool :=
  isPref "Step ".data (s.data.dropWhile (fun c => c = ' '))

/-- Model of `re.match(r'^(keywords:.*$|data:$|---$|  - \[.*\]$)', line)`
on newline-free lines. -/
def isYamlStart (s : String) : Bool :=
  startsW s "keywords:" || s = "data:" || s = "---" ||
    (startsW s "  - [" && s.data.getLast? = some ']')

/-- Model of `re.match(r'^------* Step ', line)`: at least five dashes,
then a literal " Step ". -/
def matchMultiBanner (s : String) : Bool :=
  let ds := s.data.takeWhile (fun c => c = '-')
  decide (5 ≤ ds.length) && isPref " Step ".data (s.data.drop ds.length)

/-- One character of the class `[a-df-zA-DF-Z]` (any letter except the
`e`/`E` reserved for scientific notation). -/
def alphaNotE (c : Char) : Bool :=
  c.isAlpha && !(c == 'e') && !(c == 'E')

/-- Model of `alpha.search(line)` for `alpha = re.compile(r'[a-df-zA-DF-Z]')`. -/
def hasAlphaNotE (s : String) : Bool :=
  s.data.any alphaNotE

/-- Model of `'=' in line` (single-character containment). -/
def containsChar (s : String) (c : Char) : Bool :=
  s.data.contains c

/-- Word character of the key group `[a-zA-Z_0-9]`. -/
def kvWordChar (c : Char) : Bool :=
  c.isAlphanum || c = '_'

/-- Value character of the value group `[0-9\.eE\-]`. -/
def kvValChar (c : Char) : Bool :=
  c.isDigit || c = '.' || c = 'e' || c = 'E' || c = '-'

/-- Attempt to match `([a-zA-Z_0-9]+)\s+=\s*([0-9\.eE\-]+)` at the head of
the list; on success returns the key, the value, and the rest of the
input after the match.  The three character classes are pairwise disjoint
at the boundaries used, so the regex engine's greedy matching needs no
backtracking and maximal runs are exact. -/
def kvTry (l : List Char) : Option (String × String × List Char) :=
  let w := l.takeWhile kvWordChar
  if w = [] then none
  else
    let l1 := l.dropWhile kvWordChar
    if l1.takeWhile pyIsSpace = [] then none
    else
      match l1.dropWhile pyIsSpace with
      | '=' :: l2 =>
        let l3 := l2.dropWhile pyIsSpace
        let v := l3.takeWhile kvValChar
        if v = [] then none
        else some (String.mk w, String.mk v, l3.dropWhile kvValChar)
      | _ => none

/-- Fuel-driven scan for `kvFindAll`: leftmost non-overlapping matches,
advancing one character past each failed position (as `re.findall` does). -/
def kvAux : Nat → List Char → List (String × String)
  | 0, _ => []
  | _ + 1, [] => []
  | f + 1, c :: cs =>
    match kvTry (c :: cs) with
    | some (k, v, rest) => (k, v) :: kvAux f rest
    | none => kvAux f cs

/-- Model of `kvpairs.findall(line)` for
`kvpairs = re.compile(r'([a-zA-Z_0-9]+)\s+=\s*([0-9\.eE\-]+)')`. -/
def kvFindAll (s : String) : List (String × String) :=
  kvAux s.data.length s.data

/-! ## The LogFile parser -/

/-- Python exceptions that abort a parse. -/
inductive PyErr where
  /-- Reference to a local variable that was never assigned. -/
  | nameError : String → PyErr
  /-- Dictionary lookup of a missing key. -/
  | keyError : String → PyErr
  /-- Failed numeric conversion, failed `list.index`, or failed unpacking;
  the payload names the offending token. -/
  | valueError : String → PyErr
  /-- Sequence index out of range. -/
  | indexError : PyErr
  /-- A failed `assert`. -/
  | assertionError : PyErr
  /-- An explicitly raised `Exception(msg)`. -/
  | exception : String → PyErr
  /-- The external YAML decoder rejected the buffered block. -/
  | decodeError : PyErr
deriving Repr, DecidableEq

/-- A thermo run: Python's insertion-ordered dict from column name to the
sequence of samples, as an association list with unique keys in
first-insertion order. -/
abbrev Run := List (String × List ℚ)

/-- Model of `current_run[k] = v` (dict assignment): overwrite in place if
the key exists, otherwise insert at the end. -/
def runSet (r : Run) (k : String) (v : List ℚ) : Run :=
  match r with
  | [] => [(k, v)]
  | (k', v') :: rest =>
    if k' = k then (k', v) :: rest else (k', v') :: runSet rest k v

/-- Model of the multi-style update
`if k not in current_run: current_run[k] = [x] else: current_run[k].append(x)`:
append to an existing column, or create the column at the end. -/
def runAppend (r : Run) (k : String) (x : ℚ) : Run :=
  match r with
  | [] => [(k, [x])]
  | (k', v') :: rest =>
    if k' = k then (k', v' ++ [x]) :: rest else (k', v') :: runAppend rest k x

/-- Model of `current_run[k].append(x)` on a key assumed present; `none`
is the KeyError raised when it is not. -/
def runAppendExisting (r : Run) (k : String) (x : ℚ) : Option Run :=
  match r with
  | [] => none
  | (k', v') :: rest =>
    if k' = k then some ((k', v' ++ [x]) :: rest)
    else (runAppendExisting rest k x).map (fun r' => (k', v') :: r')

/-- The column names of a run, in insertion order. -/
def runKeys (r : Run) : List String :=
  r.map Prod.fst

/-- Result of the external structured-data decoder: a `keywords` list and
a `data` list of rows of scalars (the narrow interface the parser needs). -/
structure YamlThermo where
  keywords : List String
  data : List (List ℚ)
deriving Repr, DecidableEq

/-- The local state threaded through `LogFile.__init__`'s line loop.
`keys` and `current_run` are `Option`s because the corresponding Python
locals start out unbound (using them then raises NameError). -/
structure LogState where
  /-- Current thermo style: 0 default, 1 multi, 2 yaml (the class constants). -/
  style : Nat
  /-- Buffered raw YAML block lines (Python accumulates them in a string). -/
  yamllog : List String
  /-- Completed runs, in file order (`self.runs`). -/
  runs : List Run
  /-- Captured error lines, in file order (`self.errors`). -/
  errors : List String
  /-- Inside a thermo block. -/
  in_thermo : Bool
  /-- Inside the data section of a thermo block. -/
  in_data_section : Bool
  /-- Column names of the current default-style run. -/
  keys : Option (List String)
  /-- The run being accumulated. -/
  current_run : Option Run
deriving Repr, DecidableEq

/-- The state at the top of `LogFile.__init__`'s loop. -/
def initLogState : LogState :=
  { style := 0, yamllog := [], runs := [], errors := [],
    in_thermo := false, in_data_section := false,
    keys := none, current_run := none }

/-- Builds a run for one decoded YAML row: `step[icol]` is appended to
`current_run[k]` for each keyword `k` at column index `icol`. -/
def yamlRow (ks : List String) (row : List ℚ) (cr : Run) : Except PyErr Run :=
  ks.enum.foldlM
    (fun r ik =>
      match row.get? ik.1 with
      | none => .error .indexError
      | some v =>
        match runAppendExisting r ik.2 v with
        | none => .error (.keyError ik.2)
        | some r' => .ok r')
    cr

/-- Folds `yamlRow` over all decoded data rows. -/
def yamlRows (ks : List String) (rows : List (List ℚ)) (cr : Run) :
    Except PyErr Run :=
  rows.foldlM (fun r row => yamlRow ks row r) cr

/-- Default-style data line: fold of
`for k, v in zip(keys, map(float, line.split())): current_run[k].append(v)`.
`zip` truncates to the shorter list and `map(float, ...)` is lazy, so only
the zipped tokens are converted; an empty zip never touches `current_run`. -/
def defaultFold (cr : Option Run) : List (String × String) → Except PyErr (Option Run)
  | [] => .ok cr
  | (k, t) :: rest =>
    match parseFloat t with
    | none => .error (.valueError t)
    | some v =>
      match cr with
      | none => .error (.nameError "current_run")
      | some r =>
        match runAppendExisting r k v with
        | none => .error (.keyError k)
        | some r' => defaultFold (some r') rest

/-- Multi-style data line: fold of
`for k, v in kvpairs.findall(line): ...` with dynamic column creation.
An empty match list never touches `current_run`. -/
def multiFold (cr : Option Run) : List (String × String) → Except PyErr (Option Run)
  | [] => .ok cr
  | (k, v) :: rest =>
    match cr with
    | none => .error (.nameError "current_run")
    | some r =>
      match parseFloat v with
      | none => .error (.valueError v)
      | some q => multiFold (some (runAppend r k q)) rest

/-- One iteration of `LogFile.__init__`'s `for line in f` loop: the
elif chain over line classes, in source order.  `decode` is the external
YAML decoder applied to the buffered block. -/
def logStep (decode : List String → Option YamlThermo) (s : LogState)
    (line : String) : Except PyErr LogState :=
  if containsSubstring line "ERROR" || containsSubstring line "exited on signal" then
    .ok { s with errors := s.errors ++ [line] }
  else if matchStepHeader line then
    let ks := pySplitWs line
    .ok { s with in_thermo := true, in_data_section := true, keys := some ks,
                 current_run := some (ks.foldl (fun r k => runSet r k []) []) }
  else if isYamlStart line then
    .ok { s with style := 2, yamllog := s.yamllog ++ [line], current_run := some [] }
  else if line = "..." then
    match decode s.yamllog with
    | none => .error .decodeError
    | some th =>
      match s.current_run with
      | none => .error (.nameError "current_run")
      | some cr0 =>
        let cr1 := th.keywords.foldl (fun r k => runSet r k []) cr0
        match yamlRows th.keywords th.data cr1 with
        | .error e => .error e
        | .ok cr2 =>
          .ok { s with runs := s.runs ++ [cr2], yamllog := [], current_run := some cr2 }
  else if matchMultiBanner line then
    match (if s.in_thermo then s.current_run else some [("Step", ([] : List ℚ)), ("CPU", [])]) with
    | none => .error (.nameError "current_run")
    | some cr =>
      match splitOnSub (stripChars line ['-', '\n']) "-----" with
      | [s1, s2] =>
        match (pySplitWs s1).get? 1 with
        | none => .error .indexError
        | some stok =>
          match parseFloat stok with
          | none => .error (.valueError stok)
          | some stp =>
            match (splitOnChar s2 '=').get? 1 with
            | none => .error .indexError
            | some cpart =>
              match (pySplitWs cpart).get? 0 with
              | none => .error .indexError
              | some ctok =>
                match parseFloat ctok with
                | none => .error (.valueError ctok)
                | some cp =>
                  match runAppendExisting cr "Step" stp with
                  | none => .error (.keyError "Step")
                  | some cr1 =>
                    match runAppendExisting cr1 "CPU" cp with
                    | none => .error (.keyError "CPU")
                    | some cr2 =>
                      .ok { s with in_thermo := true, in_data_section := true,
                                   style := 1, current_run := some cr2 }
      | _ => .error (.valueError "unpack")
  else if startsW line "Loop time of" then
    if s.style = 2 then .ok { s with in_thermo := false }
    else
      match s.current_run with
      | none => .error (.nameError "current_run")
      | some cr => .ok { s with in_thermo := false, runs := s.runs ++ [cr] }
  else if s.in_thermo && s.in_data_section then
    if s.style = 0 then
      if hasAlphaNotE line then .ok s
      else
        match s.keys with
        | none => .error (.nameError "keys")
        | some ks =>
          match defaultFold s.current_run (ks.zip (pySplitWs line)) with
          | .error e => .error e
          | .ok cr' => .ok { s with current_run := cr' }
    else if s.style = 1 then
      if containsChar line '=' then
        match multiFold s.current_run (kvFindAll line) with
        | .error e => .error e
        | .ok cr' => .ok { s with current_run := cr' }
      else .ok { s with in_data_section := false }
    else .ok s
  else .ok s

/-- Model of the whole constructor loop on the list of (newline-stripped) lines of the file. -/
def runLog (decode : List String → Option YamlThermo) (lines : List String) :
    Except PyErr LogState :=
  lines.foldlM (logStep decode) initLogState

/-! ## The AvgChunkFile parser -/

/-- One chunk record: the dict `{'coord': [...], 'ncount': [...]}`
created per chunk slot, later gaining `'id'` and the named data columns.
The fixed keys are separate fields; the dynamically discovered data
columns are an insertion-ordered association list (real headers name
them differently from `coord`/`ncount`/`id`, so no aliasing arises). -/
structure Chunk where
  /-- The chunk id, set on every chunk-data line. -/
  id : Option Int
  /-- One coordinate tuple per observed timestep. -/
  coord : List (List ℚ)
  /-- One count sample per observed timestep. -/
  ncount : List ℚ
  /-- Dynamically discovered data columns, in first-seen order. -/
  extra : List (String × List ℚ)
deriving Repr, DecidableEq

/-- A freshly appended chunk slot. -/
def emptyChunk : Chunk :=
  { id := none, coord := [], ncount := [], extra := [] }

/-- Append `x` to the data column `k` of a chunk, creating it at the end
on first sight (same update rule as `runAppend`). -/
def chunkExtraAppend (c : Chunk) (k : String) (x : ℚ) : Chunk :=
  { c with extra := runAppend c.extra k x }

/-- The state threaded through `AvgChunkFile.__init__`'s line loop.
Fields that model Python locals unbound before some line are `Option`s. -/
structure AvgState where
  /-- The fix name, from token 5 of line 0. -/
  fix_name : Option String
  /-- The group name, from token 8 of line 0. -/
  group_name : Option String
  /-- The accumulated timesteps. -/
  timesteps : List Int
  /-- The accumulated total counts. -/
  total_count : List ℚ
  /-- The accumulated chunk records. -/
  chunks : List Chunk
  /-- The `timestep` local; `none` before the first body line. -/
  timestep : Option Int
  /-- The `num_chunks` local, set with the first timestep header. -/
  num_chunks : Option Int
  /-- The `chunks_read` counter. -/
  chunks_read : Nat
  /-- The per-chunk column names from line 2 (`line.split()[1:]`). -/
  columns : Option (List String)
  /-- Dimensionality ndim: occurrences of the substring "Coord" in line 2. -/
  ndim : Option Nat
  /-- Compression flag: whether line 2 contains the substring "OrigID". -/
  compress : Option Bool
  /-- Index of the first coordinate column (`None` when `ndim == 0`). -/
  coord_start : Option Nat
  /-- Index of the last coordinate column (`None` when `ndim == 0`). -/
  coord_end : Option Nat
  /-- Index of the count column. -/
  ncount_start : Option Nat
  /-- Index of the first free-form data column. -/
  data_start : Option Nat
deriving Repr, DecidableEq

/-- The state at the top of `AvgChunkFile.__init__`'s loop. -/
def initAvgState : AvgState :=
  { fix_name := none, group_name := none, timesteps := [], total_count := [],
    chunks := [], timestep := none, num_chunks := none, chunks_read := 0,
    columns := none, ndim := none, compress := none,
    coord_start := none, coord_end := none, ncount_start := none,
    data_start := none }

/-- The message of all three malformed-header exceptions. -/
def hdrErrMsg : String :=
  "Chunk data reader only supports default avg/chunk headers!"

/-- The message of the dynamic-chunk-count exception. -/
def dynChunkErrMsg : String :=
  "Currently, changing numbers of chunks are not supported."

/-- Reads the data columns of one chunk line:
`for i, data_column in list(enumerate(columns))[data_start:]:
   value = float(parts[i]); append/create`. -/
def chunkDataFold (parts : List String) (cur : Chunk) :
    List (Nat × String) → Except PyErr Chunk
  | [] => .ok cur
  | (i, col) :: rest =>
    match parts.get? i with
    | none => .error .indexError
    | some tok =>
      match parseFloat tok with
      | none => .error (.valueError tok)
      | some v => chunkDataFold parts (chunkExtraAppend cur col v) rest

/-- Processes one chunk-data line (the `elif chunks_read < num_chunks`
branch), given the already split `parts`. -/
def avgChunkLine (s : AvgState) (parts : List String) : Except PyErr AvgState :=
  match parts.get? 0 with
  | none => .error .indexError
  | some p0 =>
    match parseInt p0 with
    | none => .error (.valueError p0)
    | some chunk =>
      match s.ncount_start with
      | none => .error (.nameError "ncount_start")
      | some ncs =>
        match parts.get? ncs with
        | none => .error .indexError
        | some nctok =>
          match parseFloat nctok with
          | none => .error (.valueError nctok)
          | some ncv =>
            match s.compress with
            | none => .error (.nameError "compress")
            | some cp =>
              match (if cp then
                       match parts.get? 1 with
                       | none => .error .indexError
                       | some p1 =>
                         match parseInt p1 with
                         | none => .error (.valueError p1)
                         | some cid => .ok cid
                     else .ok chunk : Except PyErr Int) with
              | .error e => .error e
              | .ok chunk_id =>
                match pyGet s.chunks (chunk_id - 1) with
                | none => .error .indexError
                | some cur =>
                  let cur1 := { cur with id := some chunk_id,
                                         ncount := cur.ncount ++ [ncv] }
                  match s.ndim with
                  | none => .error (.nameError "ndim")
                  | some nd =>
                    match (if 0 < nd then
                             match s.coord_start, s.coord_end with
                             | some cs, some ce =>
                               match ((parts.drop cs).take (ce + 1 - cs)).mapM parseFloat with
                               | none => .error (.valueError "coord")
                               | some cv => .ok { cur1 with coord := cur1.coord ++ [cv] }
                             | _, _ => .error (.nameError "coord_start")
                           else .ok cur1 : Except PyErr Chunk) with
                    | .error e => .error e
                    | .ok cur2 =>
                      match s.columns, s.data_start with
                      | some cols, some ds =>
                        match chunkDataFold parts cur2 (cols.enum.drop ds) with
                        | .error e => .error e
                        | .ok cur3 =>
                          if chunk = ((s.chunks_read : Int) + 1) then
                            .ok { s with chunks := pySet s.chunks (chunk_id - 1) cur3,
                                         chunks_read := s.chunks_read + 1 }
                          else .error .assertionError
                      | _, _ => .error (.nameError "columns")

/-- One iteration of `AvgChunkFile.__init__`'s
`for lineno, line in enumerate(f)` loop. -/
def avgStep (s : AvgState) (lineno : Nat) (line : String) : Except PyErr AvgState :=
  if lineno = 0 then
    if startsW line "# Chunk-averaged data for fix" then
      let parts := pySplitWs line
      match parts.get? 5 with
      | none => .error .indexError
      | some p5 =>
        match parts.get? 8 with
        | none => .error .indexError
        | some p8 => .ok { s with fix_name := some p5, group_name := some p8 }
    else .error (.exception hdrErrMsg)
  else if lineno = 1 then
    if startsW line "# Timestep Number-of-chunks Total-count" then .ok s
    else .error (.exception hdrErrMsg)
  else if lineno = 2 then
    if startsW line "#" then
      let columns := (pySplitWs line).drop 1
      let nd := countSubstr line "Coord"
      let cp := containsSubstring line "OrigID"
      if 0 < nd then
        match idxOf columns "Coord1" with
        | none => .error (.valueError "Coord1")
        | some cs =>
          match idxOf columns ("Coord" ++ toString nd) with
          | none => .error (.valueError ("Coord" ++ toString nd))
          | some ce =>
            .ok { s with columns := some columns, ndim := some nd,
                         compress := some cp, coord_start := some cs,
                         coord_end := some ce, ncount_start := some (ce + 1),
                         data_start := some (ce + 2) }
      else
        .ok { s with columns := some columns, ndim := some nd,
                     compress := some cp, coord_start := none,
                     coord_end := none, ncount_start := some 2,
                     data_start := some 3 }
    else .error (.exception hdrErrMsg)
  else
    let parts := pySplitWs line
    match s.timestep with
    | none =>
      match parts.get? 0 with
      | none => .error .indexError
      | some p0 =>
        match parseInt p0 with
        | none => .error (.valueError p0)
        | some t =>
          match parts.get? 1 with
          | none => .error .indexError
          | some p1 =>
            match parseInt p1 with
            | none => .error (.valueError p1)
            | some n =>
              match parts.get? 2 with
              | none => .error .indexError
              | some p2 =>
                match parseFloat p2 with
                | none => .error (.valueError p2)
                | some tc =>
                  .ok { s with timestep := some t, num_chunks := some n,
                               timesteps := s.timesteps ++ [t],
                               total_count := s.total_count ++ [tc],
                               chunks := s.chunks ++ List.replicate n.toNat emptyChunk }
    | some _ =>
      match s.num_chunks with
      | none => .error (.nameError "num_chunks")
      | some nc =>
        if (s.chunks_read : Int) < nc then avgChunkLine s parts
        else
          match parts.get? 1 with
          | none => .error .indexError
          | some p1 =>
            match parseInt p1 with
            | none => .error (.valueError p1)
            | some m =>
              if nc = m then
                match parts.get? 0 with
                | none => .error .indexError
                | some p0 =>
                  match parseInt p0 with
                  | none => .error (.valueError p0)
                  | some t =>
                    match parts.get? 2 with
                    | none => .error .indexError
                    | some p2 =>
                      match parseFloat p2 with
                      | none => .error (.valueError p2)
                      | some tc =>
                        .ok { s with timestep := some t, chunks_read := 0,
                                     timesteps := s.timesteps ++ [t],
                                     total_count := s.total_count ++ [tc] }
              else .error (.exception dynChunkErrMsg)

/-- Model of the whole constructor loop on the list of (newline-stripped) lines. -/
def runAvgChunk (lines : List String) : Except PyErr AvgState :=
  lines.enum.foldlM (fun st p => avgStep st p.1 p.2) initAvgState

/-! ## Derived definitions used in theorem statements -/

/-- The characters that can occur in a numeric token accepted by
`parseFloat` (digits, decimal point, exponent letters, signs). -/
def floatCharList : List Char :=
  ['0', '1', '2', '3', '4', '5', '6', '7', '8', '9', '.', 'e', 'E', '+', '-']

/-- A numeric token together with its parsed value: `parseFloat`
succeeds on it, and it is a nonempty string of numeric-literal
characters (hence free of whitespace and of letters other than e/E). -/
def NumToken (t : String) (q : ℚ) : Prop :=
  parseFloat t = some q ∧ t.data ≠ [] ∧ ∀ c ∈ t.data, c ∈ floatCharList

instance (t : String) (q : ℚ) : Decidable (NumToken t q) := by
  unfold NumToken; infer_instance

/-- A row of three whitespace-separated tokens. -/
def mkRow (a b c : String) : String :=
  a ++ " " ++ b ++ " " ++ c

/-- Characters that can occur anywhere in a numeric data row:
token characters and the separating blanks. -/
def rowCharList : List Char :=
  ' ' :: floatCharList

/-! ## Supporting lemmas: line classes on numeric data rows -/

theorem bool_eq_false_of_imp {b : Bool} (h : b = true → False) : b = false := by
  cases b
  · rfl
  · exact absurd rfl h

theorem isPref_mem {p l : List Char} (h : isPref p l = true) :
    ∀ c ∈ p, c ∈ l := by
  induction p generalizing l with
  | nil => intro c hc; cases hc
  | cons a as ih =>
    cases l with
    | nil => simp [isPref] at h
    | cons b bs =>
      simp only [isPref] at h
      by_cases hab : a = b
      · subst hab
        simp only [if_pos rfl] at h
        intro c hc
        rcases List.mem_cons.mp hc with rfl | hc
        · exact List.mem_cons_self _ _
        · exact List.mem_cons_of_mem _ (ih h c hc)
      · simp [if_neg hab] at h

theorem subAt_mem {nd l : List Char} (h : subAt nd l = true) :
    ∀ c ∈ nd, c ∈ l := by
  induction l with
  | nil =>
    simp only [subAt] at h
    intro c hc
    exact absurd (isPref_mem h c hc) (List.not_mem_nil c)
  | cons b bs ih =>
    simp only [subAt, Bool.or_eq_true] at h
    rcases h with h | h
    · exact isPref_mem h
    · intro c hc
      exact List.mem_cons_of_mem _ (ih h c hc)

theorem containsSubstring_mem {hay needle : String}
    (h : containsSubstring hay needle = true) :
    ∀ c ∈ needle.data, c ∈ hay.data :=
  subAt_mem h

theorem mem_of_mem_dropWhile {p : Char → Bool} {l : List Char} {c : Char}
    (h : c ∈ l.dropWhile p) : c ∈ l := by
  induction l with
  | nil => simp at h
  | cons a as ih =>
    by_cases ha : p a
    · simp only [List.dropWhile_cons, ha, if_true] at h
      exact List.mem_cons_of_mem _ (ih h)
    · simp only [List.dropWhile_cons, ha] at h
      simpa using h

theorem mem_of_mem_drop {l : List Char} {n : Nat} {c : Char}
    (h : c ∈ l.drop n) : c ∈ l := by
  induction l generalizing n with
  | nil => simp at h
  | cons a as ih =>
    cases n with
    | zero => simpa using h
    | succ m => exact List.mem_cons_of_mem _ (ih (n := m) h)

theorem matchStepHeader_memS {s : String} (h : matchStepHeader s = true) :
    'S' ∈ s.data := by
  unfold matchStepHeader at h
  have := isPref_mem h 'S' (by decide)
  exact mem_of_mem_dropWhile this

theorem matchMultiBanner_memS {s : String} (h : matchMultiBanner s = true) :
    'S' ∈ s.data := by
  unfold matchMultiBanner at h
  simp only [Bool.and_eq_true] at h
  have := isPref_mem h.2 'S' (by decide)
  exact mem_of_mem_drop this

theorem startsW_memL {s pre : String} {c : Char} (hc : c ∈ pre.data)
    (h : startsW s pre = true) : c ∈ s.data :=
  isPref_mem h c hc

theorem isPref_head {a b : Char} {as bs : List Char}
    (h : isPref (a :: as) (b :: bs) = true) : a = b := by
  simp only [isPref] at h
  by_cases hab : a = b
  · exact hab
  · simp [if_neg hab] at h

theorem matchMultiBanner_head {s : String} (h : matchMultiBanner s = true) :
    ∃ r, s.data = '-' :: r := by
  unfold matchMultiBanner at h
  simp only [Bool.and_eq_true, decide_eq_true_eq] at h
  cases hd : s.data with
  | nil => rw [hd] at h; simp at h
  | cons c cs =>
    rw [hd] at h
    by_cases hc : c = '-'
    · exact ⟨cs, by rw [hc]⟩
    · exfalso
      have : List.takeWhile (fun x => x = '-') (c :: cs) = [] := by
        simp [List.takeWhile_cons, hc]
      rw [this] at h
      simp at h

theorem startsW_head {s pre : String} {c : Char} {cs : List Char}
    (hpre : pre.data = c :: cs) (h : startsW s pre = true) :
    ∃ r, s.data = c :: r := by
  unfold startsW at h
  rw [hpre] at h
  cases hd : s.data with
  | nil => rw [hd] at h; simp [isPref] at h
  | cons b bs =>
    rw [hd] at h
    exact ⟨bs, by rw [isPref_head h]⟩

/-! ## Supporting lemmas: whitespace splitting of token rows -/



theorem data_append (a b : String) : (a ++ b).data = a.data ++ b.data := rfl

theorem mkRow_data (a b c : String) :
    (mkRow a b c).data = a.data ++ (' ' :: (b.data ++ (' ' :: c.data))) := by
  simp [mkRow, data_append]

theorem wsSplitAux_token {t : List Char} (ht : ∀ c ∈ t, pyIsSpace c = false)
    (rest acc : List Char) :
    wsSplitAux (t ++ rest) acc = wsSplitAux rest (t.reverse ++ acc) := by
  induction t generalizing acc with
  | nil => simp
  | cons c cs ih =>
    have hc : pyIsSpace c = false := ht c (List.mem_cons_self _ _)
    have hcs : ∀ x ∈ cs, pyIsSpace x = false :=
      fun x hx => ht x (List.mem_cons_of_mem _ hx)
    simp only [List.cons_append, wsSplitAux, hc, Bool.false_eq_true, if_false,
      List.append_eq]
    rw [ih hcs (c :: acc)]
    have hacc : (c :: cs).reverse ++ acc = cs.reverse ++ (c :: acc) := by simp
    rw [hacc]

theorem wsSplitAux_space {rest acc : List Char} (hacc : acc ≠ []) :
    wsSplitAux (' ' :: rest) acc = acc.reverse :: wsSplitAux rest [] := by
  simp [wsSplitAux, pyIsSpace, hacc]

theorem wsSplitAux_nil {acc : List Char} (hacc : acc ≠ []) :
    wsSplitAux [] acc = [acc.reverse] := by
  simp [wsSplitAux, hacc]

theorem float_tok_not_space {c : Char} (h : c ∈ floatCharList) :
    pyIsSpace c = false := by
  fin_cases h <;> decide


theorem mkRow_chars {a b c : String}
    (ha : ∀ x ∈ a.data, x ∈ floatCharList)
    (hb : ∀ x ∈ b.data, x ∈ floatCharList)
    (hc : ∀ x ∈ c.data, x ∈ floatCharList) :
    ∀ x ∈ (mkRow a b c).data, x ∈ rowCharList := by
  rw [mkRow_data]
  intro x hx
  simp only [List.mem_append, List.mem_cons] at hx
  rcases hx with hx | hx | hx | hx | hx
  · exact List.mem_cons_of_mem _ (ha x hx)
  · exact hx ▸ List.mem_cons_self _ _
  · exact List.mem_cons_of_mem _ (hb x hx)
  · exact hx ▸ List.mem_cons_self _ _
  · exact List.mem_cons_of_mem _ (hc x hx)

theorem row_not_contains {hay needle : String} {bad : Char}
    (hrow : ∀ x ∈ hay.data, x ∈ rowCharList)
    (hbad : bad ∈ needle.data) (hbad2 : bad ∉ rowCharList) :
    containsSubstring hay needle = false :=
  bool_eq_false_of_imp fun h =>
    hbad2 (hrow bad (containsSubstring_mem h bad hbad))

theorem row_not_stepHeader {s : String}
    (hrow : ∀ x ∈ s.data, x ∈ rowCharList) :
    matchStepHeader s = false :=
  bool_eq_false_of_imp fun h =>
    (by decide : 'S' ∉ rowCharList) (hrow 'S' (matchStepHeader_memS h))

theorem row_not_banner {s : String}
    (hrow : ∀ x ∈ s.data, x ∈ rowCharList) :
    matchMultiBanner s = false :=
  bool_eq_false_of_imp fun h =>
    (by decide : 'S' ∉ rowCharList) (hrow 'S' (matchMultiBanner_memS h))

theorem row_not_loop {s : String}
    (hrow : ∀ x ∈ s.data, x ∈ rowCharList) :
    startsW s "Loop time of" = false :=
  bool_eq_false_of_imp fun h =>
    (by decide : 'p' ∉ rowCharList)
      (hrow 'p' (startsW_memL (by decide) h))

theorem row_not_yamlStart {s : String}
    (hrow : ∀ x ∈ s.data, x ∈ rowCharList) (hsp : ' ' ∈ s.data) :
    isYamlStart s = false := by
  apply bool_eq_false_of_imp
  intro h
  unfold isYamlStart at h
  simp only [Bool.or_eq_true, Bool.and_eq_true, decide_eq_true_eq] at h
  rcases h with ((h | h) | h) | h
  · exact (by decide : 'k' ∉ rowCharList) (hrow 'k' (startsW_memL (by decide) h))
  · rw [h] at hsp; exact absurd hsp (by decide)
  · rw [h] at hsp; exact absurd hsp (by decide)
  · exact (by decide : '[' ∉ rowCharList) (hrow '[' (startsW_memL (by decide) h.1))

theorem row_ne_dots {s : String} (hsp : ' ' ∈ s.data) : s ≠ "..." := by
  intro h
  rw [h] at hsp
  exact absurd hsp (by decide)

theorem row_not_alpha {s : String}
    (hrow : ∀ x ∈ s.data, x ∈ rowCharList) :
    hasAlphaNotE s = false := by
  unfold hasAlphaNotE
  apply bool_eq_false_of_imp
  intro h
  rw [List.any_eq_true] at h
  obtain ⟨c, hc, hac⟩ := h
  have hmem := hrow c hc
  fin_cases hmem <;> exact absurd hac (by decide)

theorem mk_data (s : String) : String.mk s.data = s := rfl

/-- Splitting a three-token row recovers the three tokens. -/
theorem pySplitWs_mkRow {a b c : String}
    (ha : a.data ≠ []) (hb : b.data ≠ []) (hc : c.data ≠ [])
    (ha' : ∀ x ∈ a.data, pyIsSpace x = false)
    (hb' : ∀ x ∈ b.data, pyIsSpace x = false)
    (hc' : ∀ x ∈ c.data, pyIsSpace x = false) :
    pySplitWs (mkRow a b c) = [a, b, c] := by
  unfold pySplitWs
  rw [mkRow_data]
  rw [wsSplitAux_token ha', wsSplitAux_space (by simpa using ha),
    wsSplitAux_token hb', wsSplitAux_space (by simpa using hb)]
  have hfin : c.data ++ [] = c.data := by simp
  rw [← hfin, wsSplitAux_token hc', wsSplitAux_nil (by simpa using hc)]
  simp [mk_data]

/-- Processing one three-token numeric row while inside the data section
of a default-style run with columns Step, Temp, Press: each parsed value
is appended to its positional column, nothing else changes. -/
theorem logStep_defaultRow (decode : List String → Option YamlThermo)
    (s : LogState) (a b c : List ℚ) (t1 t2 t3 : String) (q1 q2 q3 : ℚ)
    (hth : s.in_thermo = true) (hds : s.in_data_section = true)
    (hst : s.style = 0)
    (hk : s.keys = some ["Step", "Temp", "Press"])
    (hcr : s.current_run = some [("Step", a), ("Temp", b), ("Press", c)])
    (h1 : NumToken t1 q1) (h2 : NumToken t2 q2) (h3 : NumToken t3 q3) :
    logStep decode s (mkRow t1 t2 t3) =
      .ok { s with
            current_run :=
              some [("Step", a ++ [q1]), ("Temp", b ++ [q2]),
                ("Press", c ++ [q3])] } := by
  obtain ⟨hp1, hne1, hl1⟩ := h1
  obtain ⟨hp2, hne2, hl2⟩ := h2
  obtain ⟨hp3, hne3, hl3⟩ := h3
  have hrow := mkRow_chars hl1 hl2 hl3
  have hsp : ' ' ∈ (mkRow t1 t2 t3).data := by
    rw [mkRow_data]; simp
  have hE1 : containsSubstring (mkRow t1 t2 t3) "ERROR" = false :=
    row_not_contains hrow (show 'R' ∈ "ERROR".data by decide) (by decide)
  have hE2 : containsSubstring (mkRow t1 t2 t3) "exited on signal" = false :=
    row_not_contains hrow (show 'x' ∈ "exited on signal".data by decide) (by decide)
  have hH := row_not_stepHeader hrow
  have hY := row_not_yamlStart hrow hsp
  have hD := row_ne_dots hsp
  have hB := row_not_banner hrow
  have hL := row_not_loop hrow
  have hA := row_not_alpha hrow
  have hsplit := pySplitWs_mkRow hne1 hne2 hne3
    (fun x hx => float_tok_not_space (hl1 x hx))
    (fun x hx => float_tok_not_space (hl2 x hx))
    (fun x hx => float_tok_not_space (hl3 x hx))
  unfold logStep
  rw [hE1, hE2, hH, hY, hB, hL]
  simp only [Bool.or_self, Bool.false_eq_true, if_false, if_neg hD, hth, hds,
    Bool.and_self, if_true, hst, if_pos rfl, hA, hk, hsplit, hcr]
  simp [defaultFold, hp1, hp2, hp3, runAppendExisting]

/-- Unfolds one successful step of the line loop. -/
theorem runLog_cons_ok {decode : List String → Option YamlThermo}
    {s s' : LogState} {x : String} {xs : List String}
    (h : logStep decode s x = .ok s') :
    List.foldlM (logStep decode) s (x :: xs) =
      List.foldlM (logStep decode) s' xs := by
  rw [List.foldlM_cons, h]
  rfl


/-! ## Claim C1: default-style header plus three numeric rows -/

/-- C1: a log file consisting of the default-style header line
"Step Temp Press", three whitespace-separated numeric data rows, and a
terminating "Loop time of" line parses to exactly one Run whose keys are
exactly Step, Temp, Press, each column of length 3, with the i-th entry
of each column equal to the corresponding value of the i-th input row. -/
theorem c1_default_header_rows (decode : List String → Option YamlThermo)
    (t11 t12 t13 t21 t22 t23 t31 t32 t33 : String)
    (q11 q12 q13 q21 q22 q23 q31 q32 q33 : ℚ)
    (h11 : NumToken t11 q11) (h12 : NumToken t12 q12) (h13 : NumToken t13 q13)
    (h21 : NumToken t21 q21) (h22 : NumToken t22 q22) (h23 : NumToken t23 q23)
    (h31 : NumToken t31 q31) (h32 : NumToken t32 q32) (h33 : NumToken t33 q33) :
    (runLog decode
        ["Step Temp Press", mkRow t11 t12 t13, mkRow t21 t22 t23,
         mkRow t31 t32 t33, "Loop time of 0.5 on 1 procs"]).map LogState.runs =
      .ok [[("Step", [q11, q21, q31]), ("Temp", [q12, q22, q32]),
            ("Press", [q13, q23, q33])]] := by
  have e0 : logStep decode initLogState "Step Temp Press" =
      .ok { style := 0, yamllog := [], runs := [], errors := [],
            in_thermo := true, in_data_section := true,
            keys := some ["Step", "Temp", "Press"],
            current_run := some [("Step", []), ("Temp", []), ("Press", [])] } := rfl
  have e1 : logStep decode
      { style := 0, yamllog := [], runs := [], errors := [],
        in_thermo := true, in_data_section := true,
        keys := some ["Step", "Temp", "Press"],
        current_run := some [("Step", []), ("Temp", []), ("Press", [])] }
      (mkRow t11 t12 t13) =
      .ok { style := 0, yamllog := [], runs := [], errors := [],
            in_thermo := true, in_data_section := true,
            keys := some ["Step", "Temp", "Press"],
            current_run := some [("Step", [q11]), ("Temp", [q12]), ("Press", [q13])] } := by
    have h := logStep_defaultRow decode
      { style := 0, yamllog := [], runs := [], errors := [],
        in_thermo := true, in_data_section := true,
        keys := some ["Step", "Temp", "Press"],
        current_run := some [("Step", []), ("Temp", []), ("Press", [])] }
      [] [] [] t11 t12 t13 q11 q12 q13
      rfl rfl rfl rfl rfl h11 h12 h13
    simpa using h
  have e2 : logStep decode
      { style := 0, yamllog := [], runs := [], errors := [],
        in_thermo := true, in_data_section := true,
        keys := some ["Step", "Temp", "Press"],
        current_run := some [("Step", [q11]), ("Temp", [q12]), ("Press", [q13])] }
      (mkRow t21 t22 t23) =
      .ok { style := 0, yamllog := [], runs := [], errors := [],
            in_thermo := true, in_data_section := true,
            keys := some ["Step", "Temp", "Press"],
            current_run := some [("Step", [q11, q21]), ("Temp", [q12, q22]),
              ("Press", [q13, q23])] } := by
    have h := logStep_defaultRow decode
      { style := 0, yamllog := [], runs := [], errors := [],
        in_thermo := true, in_data_section := true,
        keys := some ["Step", "Temp", "Press"],
        current_run := some [("Step", [q11]), ("Temp", [q12]), ("Press", [q13])] }
      [q11] [q12] [q13] t21 t22 t23 q21 q22 q23
      rfl rfl rfl rfl rfl h21 h22 h23
    simpa using h
  have e3 : logStep decode
      { style := 0, yamllog := [], runs := [], errors := [],
        in_thermo := true, in_data_section := true,
        keys := some ["Step", "Temp", "Press"],
        current_run := some [("Step", [q11, q21]), ("Temp", [q12, q22]),
          ("Press", [q13, q23])] }
      (mkRow t31 t32 t33) =
      .ok { style := 0, yamllog := [], runs := [], errors := [],
            in_thermo := true, in_data_section := true,
            keys := some ["Step", "Temp", "Press"],
            current_run := some [("Step", [q11, q21, q31]), ("Temp", [q12, q22, q32]),
              ("Press", [q13, q23, q33])] } := by
    have h := logStep_defaultRow decode
      { style := 0, yamllog := [], runs := [], errors := [],
        in_thermo := true, in_data_section := true,
        keys := some ["Step", "Temp", "Press"],
        current_run := some [("Step", [q11, q21]), ("Temp", [q12, q22]),
          ("Press", [q13, q23])] }
      [q11, q21] [q12, q22] [q13, q23]
      t31 t32 t33 q31 q32 q33 rfl rfl rfl rfl rfl h31 h32 h33
    simpa using h
  have e4 : logStep decode
      { style := 0, yamllog := [], runs := [], errors := [],
        in_thermo := true, in_data_section := true,
        keys := some ["Step", "Temp", "Press"],
        current_run := some [("Step", [q11, q21, q31]), ("Temp", [q12, q22, q32]),
          ("Press", [q13, q23, q33])] }
      "Loop time of 0.5 on 1 procs" =
      .ok { style := 0, yamllog := [],
            runs := [[("Step", [q11, q21, q31]), ("Temp", [q12, q22, q32]),
              ("Press", [q13, q23, q33])]],
            errors := [], in_thermo := false, in_data_section := true,
            keys := some ["Step", "Temp", "Press"],
            current_run := some [("Step", [q11, q21, q31]), ("Temp", [q12, q22, q32]),
              ("Press", [q13, q23, q33])] } := rfl
  unfold runLog
  rw [runLog_cons_ok e0, runLog_cons_ok e1, runLog_cons_ok e2,
    runLog_cons_ok e3, runLog_cons_ok e4]
  rfl

/-- Closed witness for C1 at concrete numeric rows. -/
theorem c1_default_header_rows_witness :
    (runLog (fun _ => none)
        ["Step Temp Press", mkRow "0" "1.0" "2.0", mkRow "10" "1.5" "2.5",
         mkRow "20" "3" "4", "Loop time of 0.5 on 1 procs"]).map LogState.runs =
      .ok [[("Step", [0, 10, 20]), ("Temp", [1, mkRat 3 2, 3]),
            ("Press", [2, mkRat 5 2, 4])]] :=
  c1_default_header_rows (fun _ => none) "0" "1.0" "2.0" "10" "1.5" "2.5"
    "20" "3" "4" 0 1 2 10 (mkRat 3 2) (mkRat 5 2) 20 3 4
    (by decide) (by decide) (by decide) (by decide) (by decide) (by decide)
    (by decide) (by decide) (by decide)

/-! ## Claim C4: error lines are captured and change nothing else -/

/-- C4: in every parser state, a line containing "ERROR" or
"exited on signal" is appended verbatim to the error list and no other
component of the state (style, buffers, runs, flags, keys, current run)
changes. -/
theorem c4_error_line_capture (decode : List String → Option YamlThermo)
    (s : LogState) (line : String)
    (h : containsSubstring line "ERROR" = true ∨
      containsSubstring line "exited on signal" = true) :
    logStep decode s line = .ok { s with errors := s.errors ++ [line] } := by
  unfold logStep
  rcases h with h | h <;> simp [h]

/-- Closed witness for C4. -/
theorem c4_error_line_capture_witness :
    logStep (fun _ => none) initLogState "ERROR: lost atoms" =
      .ok { style := 0, yamllog := [], runs := [],
            errors := ["ERROR: lost atoms"], in_thermo := false,
            in_data_section := false, keys := none, current_run := none } :=
  c4_error_line_capture (fun _ => none) initLogState "ERROR: lost atoms"
    (Or.inl (by decide))

/-! ## Claim C9: parsing is a pure function of the file content -/

/-- C9: re-parsing the same lines yields structurally equal results for
both parsers; the embedded parsers are pure functions of the line list
(the source threads all its state through locals of a single pass, and
the module has no mutable global state), so both parses coincide. -/
theorem c9_reparse_deterministic (decode : List String → Option YamlThermo)
    (loglines chunklines : List String) :
    runLog decode loglines = runLog decode loglines ∧
      runAvgChunk chunklines = runAvgChunk chunklines :=
  ⟨rfl, rfl⟩

/-! ## Supporting lemmas: lines with a known head -/

theorem isPref_exists {p l : List Char} (h : isPref p l = true) :
    ∃ r, l = p ++ r := by
  induction p generalizing l with
  | nil => exact ⟨l, rfl⟩
  | cons a as ih =>
    cases l with
    | nil => simp [isPref] at h
    | cons b bs =>
      simp only [isPref] at h
      by_cases hab : a = b
      · subst hab
        rw [if_pos rfl] at h
        obtain ⟨r, hr⟩ := ih h
        exact ⟨r, by rw [hr]; rfl⟩
      · simp [if_neg hab] at h

theorem startsW_exists {s pre : String} (h : startsW s pre = true) :
    ∃ r, s.data = pre.data ++ r :=
  isPref_exists h

/-! ## Claim C10: "Loop time of" before any run raises NameError -/

/-- C10: a "Loop time of" line processed while no run-starting line has
bound the current run (and the style is not the YAML one) aborts the
parse with a NameError on `current_run` — it is not silently ignored the
way unrecognized top-level lines are. -/
theorem c10_loop_before_any_run (decode : List String → Option YamlThermo)
    (s : LogState) (line : String)
    (hL : startsW line "Loop time of" = true)
    (hE1 : containsSubstring line "ERROR" = false)
    (hE2 : containsSubstring line "exited on signal" = false)
    (hcr : s.current_run = none) (hst : ¬ s.style = 2) :
    logStep decode s line = .error (.nameError "current_run") := by
  obtain ⟨r, hr⟩ := startsW_exists hL
  have hH : matchStepHeader line = false := by
    unfold matchStepHeader
    rw [hr]
    simp [isPref, List.dropWhile]
  have hY : isYamlStart line = false := by
    unfold isYamlStart startsW
    simp [String.ext_iff, hr, isPref]
  have hD : line ≠ "..." := by
    intro h
    rw [h] at hr
    simp at hr
  have hB : matchMultiBanner line = false := by
    unfold matchMultiBanner
    rw [hr]
    simp [List.takeWhile, isPref]
  unfold logStep
  rw [hE1, hE2, hH, hY, hB]
  simp [hD, hL, hcr, hst]

/-- Closed witness for C10: a log whose only line is a "Loop time of"
line fails with the NameError. -/
theorem c10_loop_before_any_run_witness :
    runLog (fun _ => none) ["Loop time of 1.5 on 1 procs"] =
      .error (.nameError "current_run") := by
  have h := c10_loop_before_any_run (fun _ => none) initLogState
    "Loop time of 1.5 on 1 procs" (by decide) (by decide) (by decide) rfl
    (by decide)
  unfold runLog
  rw [List.foldlM_cons, h]
  rfl

/-! ## Claim C2: YAML thermo blocks -/

theorem yamlStart_not_stepHeader {s : String} (h : isYamlStart s = true) :
    matchStepHeader s = false := by
  unfold isYamlStart at h
  simp only [Bool.or_eq_true, Bool.and_eq_true, decide_eq_true_eq] at h
  rcases h with ((h | h) | h) | h
  · obtain ⟨r, hr⟩ := startsW_exists h
    unfold matchStepHeader
    rw [hr]
    simp [isPref, List.dropWhile]
  · rw [h]; decide
  · rw [h]; decide
  · obtain ⟨r, hr⟩ := startsW_exists h.1
    unfold matchStepHeader
    rw [hr]
    simp [isPref, List.dropWhile]

/-- C2: (a) a YAML-style line in any state is buffered verbatim (appended
to the raw block buffer) with no change to the runs — no incremental
parsing; (b) at the terminator line "..." the buffered block is decoded,
and with keywords [Step, Temp] and data rows [[0, 1.0], [10, 2.0]] the
Run {Step: [0, 10], Temp: [1.0, 2.0]} — each row zipped against the
keywords in column order — is appended to the results and the buffer
cleared; (c) a subsequent "Loop time of" line in YAML style appends
nothing (the run was appended at the terminator, not here). -/
theorem c2_yaml_block (decode : List String → Option YamlThermo)
    (s1 s2 s3 : LogState) (yline : String)
    (hy : isYamlStart yline = true)
    (hE1 : containsSubstring yline "ERROR" = false)
    (hE2 : containsSubstring yline "exited on signal" = false)
    (hdec : decode s2.yamllog =
      some { keywords := ["Step", "Temp"], data := [[0, 1], [10, 2]] })
    (hcr : s2.current_run = some [])
    (hst : s3.style = 2) :
    logStep decode s1 yline =
      .ok { s1 with style := 2, yamllog := s1.yamllog ++ [yline],
                    current_run := some [] } ∧
    logStep decode s2 "..." =
      .ok { s2 with runs := s2.runs ++ [[("Step", [0, 10]), ("Temp", [1, 2])]],
                    yamllog := [],
                    current_run := some [("Step", [0, 10]), ("Temp", [1, 2])] } ∧
    logStep decode s3 "Loop time of 1" = .ok { s3 with in_thermo := false } := by
  refine ⟨?_, ?_, ?_⟩
  · have hH := yamlStart_not_stepHeader hy
    unfold logStep
    rw [hE1, hE2, hH, hy]
    simp
  · have d1 : containsSubstring "..." "ERROR" = false := by decide
    have d2 : containsSubstring "..." "exited on signal" = false := by decide
    have d3 : matchStepHeader "..." = false := by decide
    have d4 : isYamlStart "..." = false := by decide
    unfold logStep
    rw [d1, d2, d3, d4]
    simp only [Bool.or_self, Bool.false_eq_true, if_false, if_pos rfl]
    rw [hdec, hcr]
    rfl
  · have d1 : containsSubstring "Loop time of 1" "ERROR" = false := by decide
    have d2 : containsSubstring "Loop time of 1" "exited on signal" = false := by decide
    have d3 : matchStepHeader "Loop time of 1" = false := by decide
    have d4 : isYamlStart "Loop time of 1" = false := by decide
    have d5 : matchMultiBanner "Loop time of 1" = false := by decide
    have d6 : startsW "Loop time of 1" "Loop time of" = true := by decide
    unfold logStep
    rw [d1, d2, d3, d4, d5, d6]
    simp [hst]

/-- Closed witness for C2 at a concrete four-line YAML block and a
decoder whose value on that block is the example keywords and rows. -/
theorem c2_yaml_block_witness :
    logStep
        (fun b =>
          if b = ["keywords: [Step, Temp]", "data:", "  - [0, 1.0]", "  - [10, 2.0]"]
          then some { keywords := ["Step", "Temp"], data := [[0, 1], [10, 2]] }
          else none)
        initLogState "keywords: [Step, Temp]" =
      .ok { style := 2, yamllog := ["keywords: [Step, Temp]"], runs := [],
            errors := [], in_thermo := false, in_data_section := false,
            keys := none, current_run := some [] } ∧
    logStep
        (fun b =>
          if b = ["keywords: [Step, Temp]", "data:", "  - [0, 1.0]", "  - [10, 2.0]"]
          then some { keywords := ["Step", "Temp"], data := [[0, 1], [10, 2]] }
          else none)
        { style := 2,
          yamllog := ["keywords: [Step, Temp]", "data:", "  - [0, 1.0]", "  - [10, 2.0]"],
          runs := [], errors := [], in_thermo := false, in_data_section := false,
          keys := none, current_run := some [] } "..." =
      .ok { style := 2, yamllog := [],
            runs := [[("Step", [0, 10]), ("Temp", [1, 2])]], errors := [],
            in_thermo := false, in_data_section := false, keys := none,
            current_run := some [("Step", [0, 10]), ("Temp", [1, 2])] } ∧
    logStep
        (fun b =>
          if b = ["keywords: [Step, Temp]", "data:", "  - [0, 1.0]", "  - [10, 2.0]"]
          then some { keywords := ["Step", "Temp"], data := [[0, 1], [10, 2]] }
          else none)
        { style := 2, yamllog := [],
          runs := [[("Step", [0, 10]), ("Temp", [1, 2])]], errors := [],
          in_thermo := false, in_data_section := false, keys := none,
          current_run := some [("Step", [0, 10]), ("Temp", [1, 2])] }
        "Loop time of 1" =
      .ok { style := 2, yamllog := [],
            runs := [[("Step", [0, 10]), ("Temp", [1, 2])]], errors := [],
            in_thermo := false, in_data_section := false, keys := none,
            current_run := some [("Step", [0, 10]), ("Temp", [1, 2])] } :=
  c2_yaml_block _ initLogState
    { style := 2,
      yamllog := ["keywords: [Step, Temp]", "data:", "  - [0, 1.0]", "  - [10, 2.0]"],
      runs := [], errors := [], in_thermo := false, in_data_section := false,
      keys := none, current_run := some [] }
    { style := 2, yamllog := [],
      runs := [[("Step", [0, 10]), ("Temp", [1, 2])]], errors := [],
      in_thermo := false, in_data_section := false, keys := none,
      current_run := some [("Step", [0, 10]), ("Temp", [1, 2])] }
    "keywords: [Step, Temp]" (by decide) (by decide) (by decide) (by decide)
    rfl rfl

/-! ## Claim C3: the multi-style data section -/

/-- C3 counterexample: the line "foo = bar" contains no
name-equals-number pair (the pair scan finds nothing), so under the claim
it would end the data section and the following "PotEng = 1.5" line would
be ignored; the code instead only ends the section on lines without the
character '=', keeps the section open, and appends PotEng — the final run
contains a PotEng column. -/
theorem c3_counterexample :
    kvFindAll "foo = bar" = [] ∧
    (runLog (fun _ => none)
        ["------ Step 10 ----- CPU = 2.0 -----", "foo = bar", "PotEng = 1.5",
         "Loop time of 1"]).map LogState.runs =
      .ok [[("Step", [10]), ("CPU", [2]), ("PotEng", [mkRat 3 2])]] :=
  ⟨by decide, rfl⟩

/-- C3 amended: while in the multi-style data section, a line not
containing the character '=' ends the data section (and changes nothing
else); a line containing '=' keeps the section open and appends each
matched name-equals-number pair (possibly none) to the column of its key;
appending creates a missing column at the end, preserving first-seen
column order. -/
theorem c3_multi_data_section (decode : List String → Option YamlThermo)
    (s : LogState) (line : String) (r : Run) (k : String) (x : ℚ)
    (hth : s.in_thermo = true) (hds : s.in_data_section = true)
    (hst : s.style = 1)
    (hE1 : containsSubstring line "ERROR" = false)
    (hE2 : containsSubstring line "exited on signal" = false)
    (hH : matchStepHeader line = false)
    (hY : isYamlStart line = false)
    (hD : line ≠ "...")
    (hB : matchMultiBanner line = false)
    (hL : startsW line "Loop time of" = false) :
    (containsChar line '=' = false →
      logStep decode s line = .ok { s with in_data_section := false }) ∧
    (containsChar line '=' = true →
      logStep decode s line =
        match multiFold s.current_run (kvFindAll line) with
        | .error e => .error e
        | .ok cr' => .ok { s with current_run := cr' }) ∧
    runKeys (runAppend r k x) =
      (if (runKeys r).contains k then runKeys r else runKeys r ++ [k]) := by
  refine ⟨?_, ?_, ?_⟩
  · intro hne
    unfold logStep
    rw [hE1, hE2, hH, hY, hB, hL]
    simp [hD, hth, hds, hst, hne]
  · intro heq
    unfold logStep
    rw [hE1, hE2, hH, hY, hB, hL]
    simp [hD, hth, hds, hst, heq]
  · induction r with
    | nil => simp [runAppend, runKeys]
    | cons p rest ih =>
      obtain ⟨k', v'⟩ := p
      by_cases hk : k' = k
      · subst hk
        simp [runAppend, runKeys]
      · have hbk : (k == k') = false :=
          beq_eq_false_iff_ne.mpr (fun h => hk h.symm)
        simp only [runAppend, if_neg hk, runKeys, List.map_cons]
        simp only [runKeys] at ih
        rw [ih]
        have hcons : (k' :: List.map Prod.fst rest).contains k =
            (List.map Prod.fst rest).contains k := by
          simp [List.contains_cons, hbk]
        rw [hcons]
        by_cases hc : (List.map Prod.fst rest).contains k = true
        · rw [if_pos hc, if_pos hc]
        · rw [if_neg hc, if_neg hc]
          simp

/-- Closed witness for the amended C3 at a concrete state and line. -/
theorem c3_multi_data_section_witness :
    logStep (fun _ => none)
        { style := 1, yamllog := [], runs := [], errors := [],
          in_thermo := true, in_data_section := true, keys := none,
          current_run := some [("Step", [10])] } "PotEng = 1.5" =
      .ok { style := 1, yamllog := [], runs := [], errors := [],
            in_thermo := true, in_data_section := true, keys := none,
            current_run := some [("Step", [10]), ("PotEng", [mkRat 3 2])] } ∧
    runKeys (runAppend [("Step", [10])] "PotEng" (mkRat 3 2)) =
      ["Step", "PotEng"] := by
  have h := c3_multi_data_section (fun _ => none)
    { style := 1, yamllog := [], runs := [], errors := [],
      in_thermo := true, in_data_section := true, keys := none,
      current_run := some [("Step", [10])] }
    "PotEng = 1.5" [("Step", [10])] "PotEng" (mkRat 3 2)
    rfl rfl rfl (by decide) (by decide) (by decide) (by decide) (by decide)
    (by decide) (by decide)
  refine ⟨?_, ?_⟩
  · have h2 := h.2.1 (by decide)
    exact h2
  · have h3 := h.2.2
    rw [h3]
    rfl

/-! ## Claim C5: dashed multi-style banner lines -/

/-- C5 counterexample: a banner line arriving while a default-style run
(with columns Step and Temp only) is in progress makes the code append to
the missing "CPU" column and the parse aborts with a KeyError, instead of
appending step and CPU values as the claim states for every banner line
whether or not a run already exists. -/
theorem c5_counterexample :
    runLog (fun _ => none)
        ["Step Temp", "0 1.0", "------ Step 10 ----- CPU = 2.0 -----"] =
      .error (.keyError "CPU") := rfl

theorem banner_not_stepHeader {s : String} (h : matchMultiBanner s = true) :
    matchStepHeader s = false := by
  obtain ⟨r, hr⟩ := matchMultiBanner_head h
  unfold matchStepHeader
  rw [hr]
  simp [isPref, List.dropWhile]

theorem banner_not_yamlStart {s : String} (h : matchMultiBanner s = true) :
    isYamlStart s = false := by
  obtain ⟨r, hr⟩ := matchMultiBanner_head h
  apply bool_eq_false_of_imp
  intro hy
  unfold isYamlStart at hy
  simp only [Bool.or_eq_true, Bool.and_eq_true, decide_eq_true_eq] at hy
  rcases hy with ((hy | hy) | hy) | hy
  · obtain ⟨r2, hr2⟩ := startsW_exists hy
    rw [hr] at hr2
    simp at hr2
  · rw [hy] at h
    exact absurd h (by decide)
  · rw [hy] at h
    exact absurd h (by decide)
  · obtain ⟨r2, hr2⟩ := startsW_exists hy.1
    rw [hr] at hr2
    simp at hr2

theorem banner_ne_dots {s : String} (h : matchMultiBanner s = true) :
    s ≠ "..." := by
  intro he
  rw [he] at h
  exact absurd h (by decide)

/-- C5 amended: a well-formed dashed banner line appends the extracted
step and CPU values to the Step and CPU columns of the run selected by
the code: the current run when already inside a thermo block (hypothesis
`hcr0`, which when the parser is not in a thermo block forces the freshly
created implicit run with exactly the columns Step and CPU), provided
both columns are present (`ha1`, `ha2`); a banner over a run lacking one
of them instead aborts with a KeyError (see the counterexample). -/
theorem c5_multi_banner (decode : List String → Option YamlThermo)
    (s : LogState) (line s1 s2 stok cpart ctok : String)
    (stp cp : ℚ) (cr0 cr1 cr2 : Run)
    (hB : matchMultiBanner line = true)
    (hE1 : containsSubstring line "ERROR" = false)
    (hE2 : containsSubstring line "exited on signal" = false)
    (hsplit : splitOnSub (stripChars line ['-', '\n']) "-----" = [s1, s2])
    (hstok : (pySplitWs s1).get? 1 = some stok)
    (hstp : parseFloat stok = some stp)
    (hcp : (splitOnChar s2 '=').get? 1 = some cpart)
    (hct : (pySplitWs cpart).get? 0 = some ctok)
    (hcv : parseFloat ctok = some cp)
    (hcr0 : (if s.in_thermo then s.current_run
             else some [("Step", []), ("CPU", [])]) = some cr0)
    (ha1 : runAppendExisting cr0 "Step" stp = some cr1)
    (ha2 : runAppendExisting cr1 "CPU" cp = some cr2) :
    logStep decode s line =
      .ok { s with in_thermo := true, in_data_section := true, style := 1,
                   current_run := some cr2 } := by
  have hH := banner_not_stepHeader hB
  have hY := banner_not_yamlStart hB
  have hD := banner_ne_dots hB
  unfold logStep
  rw [hE1, hE2, hH, hY]
  simp only [Bool.or_self, Bool.false_eq_true, if_false, if_neg hD, hB, if_true]
  simp only [hcr0, hsplit, hstok, hstp, hcp, hct, hcv, ha1, ha2]

/-- Closed witness for the amended C5: a banner outside any thermo block
creates the implicit run with exactly Step and CPU and appends to it. -/
theorem c5_multi_banner_witness :
    logStep (fun _ => none) initLogState
        "------ Step 10 ----- CPU = 2.0 -----" =
      .ok { style := 1, yamllog := [], runs := [], errors := [],
            in_thermo := true, in_data_section := true, keys := none,
            current_run := some [("Step", [10]), ("CPU", [2])] } :=
  c5_multi_banner (fun _ => none) initLogState
    "------ Step 10 ----- CPU = 2.0 -----" " Step 10 " " CPU = 2.0 "
    "10" " 2.0 " "2.0" 10 2
    [("Step", []), ("CPU", [])] [("Step", [10]), ("CPU", [])]
    [("Step", [10]), ("CPU", [2])]
    (by decide) (by decide) (by decide) (by decide) (by decide) (by decide)
    (by decide) (by decide) (by decide) rfl (by decide) (by decide)

/-! ## Claim C6: deriving the chunk column layout from header line 2 -/

/-- Whether a token has the claimed shape of a coordinate column name:
the literal "Coord" followed by a nonempty string of digits.  Written
from the claim's words ("tokens matching Coord<k>") for comparison with
the code's derivation. -/
def claimCoordTok (t : String) : Bool :=
  isPref "Coord".data t.data && !(t.data.drop 5).isEmpty &&
    (t.data.drop 5).all Char.isDigit

/-- The claim's reading of the coordinate dimensionality: the count of
tokens of line 2 matching Coord<k>.  Written from the claim's words. -/
def claimNdim (line : String) : Nat :=
  ((pySplitWs line).filter claimCoordTok).length

/-- The claim's reading of compression: an "OrigID" column (a token of
the column list) is present.  Written from the claim's words. -/
def claimOrigIDColumn (line : String) : Bool :=
  ((pySplitWs line).drop 1).contains "OrigID"

/-- C6 counterexample.  First half: a header whose last data column
merely contains "OrigID" as a substring has no OrigID column, yet the
code sets the compression flag.  Second half: a header with exactly one
Coord<k> token ("Coord1") but a second "Coord" substring inside another
column name makes the code count ndim = 2 and fail looking up "Coord2",
although "Coord1" is present — under the claimed token-count derivation
(ndim = 1) the ranges would resolve and parsing would proceed. -/
theorem c6_counterexample :
    (claimOrigIDColumn "# Chunk Coord1 Ncount vOrigIDx" = false ∧
      avgStep initAvgState 2 "# Chunk Coord1 Ncount vOrigIDx" =
        .ok { initAvgState with
              columns := some ["Chunk", "Coord1", "Ncount", "vOrigIDx"],
              ndim := some 1, compress := some true, coord_start := some 1,
              coord_end := some 1, ncount_start := some 2,
              data_start := some 3 }) ∧
    (claimNdim "# Chunk Coord1 aCoordb Ncount" = 1 ∧
      idxOf ((pySplitWs "# Chunk Coord1 aCoordb Ncount").drop 1) "Coord1" =
        some 1 ∧
      avgStep initAvgState 2 "# Chunk Coord1 aCoordb Ncount" =
        .error (.valueError "Coord2")) :=
  ⟨⟨by decide, rfl⟩, ⟨by decide, by decide, rfl⟩⟩

/-- C6 amended: from the third header line, ndim is the number of
occurrences of the substring "Coord" anywhere in the line, and
compression is the presence of the substring "OrigID" anywhere in the
line (both coincide with the claimed token/column reading on standard
headers); the coordinate, count and data ranges come from the positions
of "Coord1" and "Coord<ndim>" in the column list; when ndim = 0 they
collapse to the fixed defaults: no coordinate columns, count index 2,
data start index 3. -/
theorem c6_header_line2 (s : AvgState) (line : String) (nd : Nat)
    (cs ce : Option Nat) (ns ds : Nat)
    (hsh : startsW line "#" = true)
    (hnd : countSubstr line "Coord" = nd)
    (hrng :
      (0 < nd ∧ ∃ i j, idxOf ((pySplitWs line).drop 1) "Coord1" = some i ∧
        idxOf ((pySplitWs line).drop 1) ("Coord" ++ toString nd) = some j ∧
        cs = some i ∧ ce = some j ∧ ns = j + 1 ∧ ds = j + 2) ∨
      (nd = 0 ∧ cs = none ∧ ce = none ∧ ns = 2 ∧ ds = 3)) :
    avgStep s 2 line =
      .ok { s with columns := some ((pySplitWs line).drop 1), ndim := some nd,
                   compress := some (containsSubstring line "OrigID"),
                   coord_start := cs, coord_end := ce,
                   ncount_start := some ns, data_start := some ds } := by
  unfold avgStep
  simp only [OfNat.ofNat_ne_zero, OfNat.ofNat_ne_one, if_false, if_pos rfl,
    Nat.succ_ne_zero]
  rw [if_pos hsh]
  rcases hrng with ⟨hpos, i, j, hi, hj, hcs, hce, hns, hds⟩ | ⟨h0, hcs, hce, hns, hds⟩
  · subst hcs hce hns hds
    simp only [hnd, if_pos hpos, hi, hj]
    simp
  · subst hcs hce hns hds h0
    simp only [hnd]
    simp

/-- Closed witness for the amended C6 at a two-dimensional header. -/
theorem c6_header_line2_witness :
    avgStep initAvgState 2 "# Chunk Coord1 Coord2 Ncount vx" =
      .ok { initAvgState with
            columns := some ["Chunk", "Coord1", "Coord2", "Ncount", "vx"],
            ndim := some 2, compress := some false, coord_start := some 1,
            coord_end := some 2, ncount_start := some 3,
            data_start := some 4 } := by
  have h := c6_header_line2 initAvgState "# Chunk Coord1 Coord2 Ncount vx" 2
    (some 1) (some 2) 3 4 (by decide) (by decide)
    (Or.inl ⟨by decide, 1, 2, by decide, by decide, rfl, rfl, rfl, rfl⟩)
  exact h

/-! ## Claim C7: a changed chunk count is fatal before accumulation -/

/-- C7: a body line read in timestep-header position (a timestep is
established and all chunks of the current one have been read) whose
second token parses to a chunk count different from the established one
makes the parse fail with the unsupported-dynamic-chunk-count exception;
the step produces only the error, so the offending timestep and its
total count are never appended. -/
theorem c7_dynamic_chunk_count (s : AvgState) (lineno : Nat) (line : String)
    (t0 nc m : Int) (p1 : String)
    (hl0 : ¬ lineno = 0) (hl1 : ¬ lineno = 1) (hl2 : ¬ lineno = 2)
    (hts : s.timestep = some t0)
    (hnc : s.num_chunks = some nc)
    (hfull : ¬ ((s.chunks_read : Int) < nc))
    (hp1 : (pySplitWs line).get? 1 = some p1)
    (hm : parseInt p1 = some m)
    (hne : ¬ nc = m) :
    avgStep s lineno line = .error (.exception dynChunkErrMsg) := by
  unfold avgStep
  rw [if_neg hl0, if_neg hl1, if_neg hl2]
  simp only [hts, hnc, if_neg hfull, hp1, hm, if_neg hne]

/-- Closed witness for C7: second timestep declares 3 chunks after 2. -/
theorem c7_dynamic_chunk_count_witness :
    avgStep
        { initAvgState with
          timestep := some 100
          num_chunks := some 2
          chunks_read := 2 } 3 "200 3 6.0" =
      .error (.exception dynChunkErrMsg) :=
  c7_dynamic_chunk_count
    { initAvgState with
      timestep := some 100
      num_chunks := some 2
      chunks_read := 2 } 3 "200 3 6.0" 100 2 3 "3"
    (by decide) (by decide) (by decide) rfl rfl (by decide) (by decide)
    (by decide) (by decide)

/-! ## Claim C8: validation of header line 1 -/

/-- C8 counterexample: a line 1 that is not the expected header string
but starts with it passes validation, against the claimed equality
check. -/
theorem c8_counterexample :
    avgStep initAvgState 1 "# Timestep Number-of-chunks Total-count EXTRA" =
      .ok initAvgState ∧
    "# Timestep Number-of-chunks Total-count EXTRA" ≠
      "# Timestep Number-of-chunks Total-count" :=
  ⟨rfl, by decide⟩

/-- C8 amended: the three header lines are checked independently, the
first mismatch being fatal; processing line 1 succeeds (leaving the
state unchanged) if and only if line 1 starts with the fixed
per-timestep summary-header prefix, and otherwise raises the
malformed-header exception. -/
theorem c8_header_line1 (s : AvgState) (line : String) :
    (avgStep s 1 line = .ok s ↔
      startsW line "# Timestep Number-of-chunks Total-count" = true) ∧
    (startsW line "# Timestep Number-of-chunks Total-count" = false →
      avgStep s 1 line = .error (.exception hdrErrMsg)) := by
  constructor
  · constructor
    · intro h
      by_cases hs : startsW line "# Timestep Number-of-chunks Total-count" = true
      · exact hs
      · exfalso
        have hs' : startsW line "# Timestep Number-of-chunks Total-count" = false :=
          bool_eq_false_of_imp hs
        unfold avgStep at h
        simp [hs'] at h
    · intro hs
      unfold avgStep
      simp [hs]
  · intro hs
    unfold avgStep
    simp [hs]

/-- Closed witness for the amended C8. -/
theorem c8_header_line1_witness :
    avgStep initAvgState 1 "not a header" = .error (.exception hdrErrMsg) :=
  (c8_header_line1 initAvgState "not a header").2 (by decide)
